import Mathlib

/-!
Verification of the lifecycle-operation engine of the `control-plane`
repository: the CLI status aggregator (`tools/cli/pkg/command/runtime.go`),
and the operation manager / operation store contract described by the
specification (the manager and store implementations are exercised by
`components/kyma-environment-broker/internal/process/upgrade_kyma_operation_test.go`).

Timestamps (`time.Time`) are embedded as natural numbers; `t.After(u)` is
`u < t`.  Go's `nil` pointers become `Option`, and a dereference of `nil`
(a Go panic) is modelled as the aggregator returning `none`.
-/

namespace ControlPlane

/-! ## Status aggregator (`tools/cli/pkg/command/runtime.go`) -/

/-- The three state strings used by `runtime.go` (`const` block, lines 21-25):
`inProgress = "in progress"`, `succeeded = "succeeded"`, `failed = "failed"`.
`Operation.State` is a plain Go `string`, so it is embedded as `String`. -/
def inProgress : String := "in progress"

def succeeded : String := "succeeded"

def failed : String := "failed"

/-- The `operationType` constants of `runtime.go` (lines 27-35), embedded as an
inductive tag; `operationTypeValue` recovers the underlying Go string. -/
inductive OperationType where
  | provision
  | deprovision
  | upgradeKyma
  | suspension
  | unsuspension
  deriving DecidableEq, Repr

/-- The Go string value carried by each `operationType` constant. -/
def operationTypeValue : OperationType → String
  | .provision => "provision"
  | .deprovision => "deprovision"
  | .upgradeKyma => "kyma upgrade"
  | .suspension => "suspension"
  | .unsuspension => "unsuspension"

/-- The `runtime.Operation` DTO as used by the aggregator: its `State` string
and `CreatedAt` timestamp, plus the `Description` and `OperationID` fields the
aggregator carries along unchanged. -/
structure Operation where
  State : String
  Description : String
  CreatedAt : Nat
  OperationID : String
  deriving DecidableEq, Repr

/-- The `runtime.RuntimeStatus` fields read by `findLastOperation`:
`Provisioning` and `Deprovisioning` are `*Operation` (hence `Option`);
`UpgradingKyma`, `Suspension` and `Unsuspension` are `OperationsData`
(a `Count` plus a `Data` slice), embedded as the `Data` list with
`Count > 0` becoming non-emptiness. -/
structure RuntimeStatus where
  Provisioning : Option Operation
  UpgradingKyma : List Operation
  Unsuspension : List Operation
  Suspension : List Operation
  Deprovisioning : Option Operation
  deriving DecidableEq, Repr

/-- `findLastOperation` (`runtime.go` lines 143-170).  The Go function starts
by dereferencing `rt.Status.Provisioning`; a `nil` pointer there panics, which
is modelled by returning `none`.  Then: the first upgrade operation replaces
the candidate unconditionally whenever present; the first unsuspension, first
suspension and the deprovisioning record each replace the candidate only when
their `CreatedAt` is `After` the candidate's. -/
def findLastOperation (rt : RuntimeStatus) : Option (Operation × OperationType) :=
  match rt.Provisioning with
  | none => none
  | some provOp =>
    let c0 : Operation × OperationType := (provOp, OperationType.provision)
    let c1 : Operation × OperationType :=
      match rt.UpgradingKyma with
      | u :: _ => (u, OperationType.upgradeKyma)
      | [] => c0
    let c2 : Operation × OperationType :=
      match rt.Unsuspension with
      | u :: _ => if c1.1.CreatedAt < u.CreatedAt then (u, OperationType.unsuspension) else c1
      | [] => c1
    let c3 : Operation × OperationType :=
      match rt.Suspension with
      | s :: _ => if c2.1.CreatedAt < s.CreatedAt then (s, OperationType.suspension) else c2
      | [] => c2
    let c4 : Operation × OperationType :=
      match rt.Deprovisioning with
      | some d => if c3.1.CreatedAt < d.CreatedAt then (d, OperationType.deprovision) else c3
      | none => c3
    some c4

/-- `operationStatusToString` (`runtime.go` lines 172-200): the label table,
with the final `return "succeeded"` fallback for any state not matched by the
`switch`. -/
def operationStatusToString (op : Operation) (t : OperationType) : String :=
  if op.State = succeeded then
    match t with
    | .deprovision => "deprovisioned"
    | .suspension => "suspended"
    | _ => "succeeded"
  else if op.State = failed then
    "failed (" ++ operationTypeValue t ++ ")"
  else if op.State = inProgress then
    match t with
    | .provision => "provisioning"
    | .unsuspension => "provisioning (unsuspending)"
    | .deprovision => "deprovisioning"
    | .suspension => "deprovisioning (suspending)"
    | .upgradeKyma => "upgrading"
  else
    "succeeded"

/-- `runtimeStatus` (`runtime.go` lines 138-141): the composition of
`findLastOperation` and `operationStatusToString`; `none` again models the
panic on a missing provisioning record. -/
def runtimeStatus (rt : RuntimeStatus) : Option String :=
  (findLastOperation rt).map fun p => operationStatusToString p.1 p.2

/-- Replace the candidate with a kind's most recent record exactly when that
record exists and its `CreatedAt` is strictly after the candidate's; the
conditional step of the aggregation algorithm as the specification words it. -/
def replaceIfNewer (cand : Operation × OperationType) (r : Option Operation)
    (t : OperationType) : Operation × OperationType :=
  match r with
  | some o => if cand.1.CreatedAt < o.CreatedAt then (o, t) else cand
  | none => cand

/-- Replace the candidate with a kind's most recent record unconditionally
whenever that record exists: the behaviour `findLastOperation` actually gives
the Upgrade kind. -/
def replaceIfPresent (cand : Operation × OperationType) (r : Option Operation)
    (t : OperationType) : Operation × OperationType :=
  match r with
  | some o => (o, t)
  | none => cand

/-- The aggregation algorithm as amended: starting from the Provisioning
record `p`, the Upgrade kind's most recent record replaces the candidate
unconditionally whenever present, and then Unsuspension, Suspension and
Deprovisioning, in that order, replace it only when strictly newer. -/
def aggregateAmended (rt : RuntimeStatus) (p : Operation) : Operation × OperationType :=
  replaceIfNewer
    (replaceIfNewer
      (replaceIfNewer
        (replaceIfPresent (p, OperationType.provision) rt.UpgradingKyma.head?
          OperationType.upgradeKyma)
        rt.Unsuspension.head? OperationType.unsuspension)
      rt.Suspension.head? OperationType.suspension)
    rt.Deprovisioning OperationType.deprovision

/-! ## Operation manager and operation store

The manager (`NewUpgradeKymaOperationManager` with `OperationSucceeded`,
`OperationFailed`, `RetryOperation`) and the store `Update` contract are part
of this repository but only their test
(`internal/process/upgrade_kyma_operation_test.go`) is in the sources at
hand, so they are modelled from the specification's contract (§4.1, §4.2).
Go errors become `Option String` (the error text; `none` is a `nil` error),
`time.Duration`/elapsed wall-clock times become `Nat`. -/

/-- The four operation states of the data model (`Pending`, `InProgress`,
`Succeeded`, `Failed`). -/
inductive OpState where
  | Pending
  | InProgress
  | Succeeded
  | Failed
  deriving DecidableEq, Repr

/-- The base `Operation` entity of the data model: identifier, optimistic
version, owning instance, state, description and the two timestamps. -/
structure MOperation where
  ID : String
  Version : Nat
  InstanceID : String
  State : OpState
  Description : String
  CreatedAt : Nat
  UpdatedAt : Nat
  ProvisionerOperationID : String
  deriving DecidableEq, Repr

/-- Modelled from the spec: the manager's `Succeed` transition, whose
implementation (`OperationSucceeded`) is missing from the sources.  It sets
`State = Succeeded`, replaces `Description`, and returns a zero scheduling
delay with a `nil` error. -/
def OperationSucceeded (op : MOperation) (description : String) :
    MOperation × Nat × Option String :=
  ({ op with State := OpState.Succeeded, Description := description }, 0, none)

/-- Modelled from the spec: the manager's `Fail` transition, whose
implementation (`OperationFailed`) is missing from the sources.  It sets
`State = Failed`, replaces `Description` with the failure message, and always
returns a zero delay together with a non-nil error carrying the supplied
message, even though persistence succeeded. -/
def OperationFailed (op : MOperation) (errorMessage : String) :
    MOperation × Nat × Option String :=
  ({ op with State := OpState.Failed, Description := errorMessage }, 0, some errorMessage)

/-- Modelled from the spec: the manager's `Retry` transition, whose
implementation (`RetryOperation`) is missing from the sources.  Decision
procedure: `elapsed = now - op.UpdatedAt`; if `elapsed ≥ maxTime` the retry
budget is exhausted, the operation transitions to `Failed` with delay `0` and
a non-nil error describing exhaustion plus the original message; otherwise the
state is left as it is (`InProgress` for a live operation), `Description` is
replaced with the failure message, and the call returns
`delay = retryInterval - (elapsed mod retryInterval)` with a `nil` error. -/
def RetryOperation (now : Nat) (op : MOperation) (errorMessage : String)
    (retryInterval maxTime : Nat) : MOperation × Nat × Option String :=
  let elapsed := now - op.UpdatedAt
  if maxTime ≤ elapsed then
    ({ op with State := OpState.Failed, Description := errorMessage }, 0,
      some ("retry budget exhausted: " ++ errorMessage))
  else
    ({ op with Description := errorMessage },
      retryInterval - elapsed % retryInterval, none)

/-- The store-level error taxonomy of the persistence contract. -/
inductive StoreError where
  | AlreadyExists
  | Conflict
  | NotFound
  deriving DecidableEq, Repr

/-- Modelled from the spec: the store's `Update(operation)` on the record cell
currently holding `stored`, whose implementation is missing from the sources.
It requires `incoming.Version` to equal the currently stored version; on
success it persists the record with `Version + 1` and a fresh `UpdatedAt`
(`now`); on mismatch it fails with `Conflict`. -/
def storeUpdate (now : Nat) (stored incoming : MOperation) :
    Except StoreError MOperation :=
  if incoming.Version = stored.Version then
    Except.ok { incoming with Version := stored.Version + 1, UpdatedAt := now }
  else
    Except.error StoreError.Conflict

/-! ## Theorems: operation manager -/

/-- Claim C2: whenever the elapsed time `now - op.UpdatedAt` has reached
`maxTime`, `RetryOperation` transitions the operation to `Failed` and returns
delay `0` together with a non-nil error. -/
theorem c2_retry_exhausted (now : Nat) (op : MOperation) (msg : String)
    (ri mt : Nat) (h : mt ≤ now - op.UpdatedAt) :
    (RetryOperation now op msg ri mt).1.State = OpState.Failed ∧
    (RetryOperation now op msg ri mt).2.1 = 0 ∧
    (RetryOperation now op msg ri mt).2.2 ≠ none := by
  simp [RetryOperation, h]

/-- Concrete instance of C2: at `now = 100`, an operation last updated at
time `0` with `maxTime = 50` has exhausted its budget. -/
theorem c2_retry_exhausted_witness :
    (50 : Nat) ≤ 100 - (⟨"op-1", 0, "inst-1", OpState.InProgress, "d", 0, 0, ""⟩ :
        MOperation).UpdatedAt ∧
    ((RetryOperation 100 ⟨"op-1", 0, "inst-1", OpState.InProgress, "d", 0, 0, ""⟩
        "boom" 10 50).1.State = OpState.Failed ∧
      (RetryOperation 100 ⟨"op-1", 0, "inst-1", OpState.InProgress, "d", 0, 0, ""⟩
        "boom" 10 50).2.1 = 0 ∧
      (RetryOperation 100 ⟨"op-1", 0, "inst-1", OpState.InProgress, "d", 0, 0, ""⟩
        "boom" 10 50).2.2 ≠ none) :=
  ⟨by decide,
    c2_retry_exhausted 100 ⟨"op-1", 0, "inst-1", OpState.InProgress, "d", 0, 0, ""⟩
      "boom" 10 50 (by decide)⟩

/-- Claim C3: while the elapsed time is strictly below `maxTime` (and the
retry interval is a positive duration), `RetryOperation` leaves the state of
an in-progress operation at `InProgress` and returns a strictly positive
delay together with a `nil` error. -/
theorem c3_retry_positive_delay (now : Nat) (op : MOperation) (msg : String)
    (ri mt : Nat) (hstate : op.State = OpState.InProgress)
    (hlt : now - op.UpdatedAt < mt) (hri : 0 < ri) :
    (RetryOperation now op msg ri mt).1.State = OpState.InProgress ∧
    0 < (RetryOperation now op msg ri mt).2.1 ∧
    (RetryOperation now op msg ri mt).2.2 = none := by
  have hnot : ¬ mt ≤ now - op.UpdatedAt := Nat.not_le.mpr hlt
  refine ⟨?_, ?_, ?_⟩ <;> simp [RetryOperation, hnot, hstate]
  exact Nat.mod_lt _ hri

/-- Concrete instance of C3, the spec's own scenario in seconds:
`retryInterval = 1h = 3600`, `maxTime = 3h = 10800`, and `UpdatedAt` equal to
`now`, so the delay is positive and the error is `nil`. -/
theorem c3_retry_positive_delay_witness :
    (⟨"op-1", 0, "inst-1", OpState.InProgress, "d", 0, 7, ""⟩ :
        MOperation).State = OpState.InProgress ∧
    (7 : Nat) - 7 < 10800 ∧ (0 : Nat) < 3600 ∧
    ((RetryOperation 7 ⟨"op-1", 0, "inst-1", OpState.InProgress, "d", 0, 7, ""⟩
        "task failed" 3600 10800).1.State = OpState.InProgress ∧
      0 < (RetryOperation 7 ⟨"op-1", 0, "inst-1", OpState.InProgress, "d", 0, 7, ""⟩
        "task failed" 3600 10800).2.1 ∧
      (RetryOperation 7 ⟨"op-1", 0, "inst-1", OpState.InProgress, "d", 0, 7, ""⟩
        "task failed" 3600 10800).2.2 = none) :=
  ⟨by decide, by decide, by decide,
    c3_retry_positive_delay 7 ⟨"op-1", 0, "inst-1", OpState.InProgress, "d", 0, 7, ""⟩
      "task failed" 3600 10800 (by decide) (by decide) (by decide)⟩

/-- Claim C4: `OperationFailed` sets `State = Failed`, returns delay `0`, and
always returns a non-nil error whose text equals the supplied message exactly,
even though the transition itself succeeded. -/
theorem c4_fail_reports_message (op : MOperation) (msg : String) :
    (OperationFailed op msg).1.State = OpState.Failed ∧
    (OperationFailed op msg).2.1 = 0 ∧
    (OperationFailed op msg).2.2 = some msg :=
  ⟨rfl, rfl, rfl⟩

/-- Claim C5: on an `InProgress` operation, `OperationSucceeded` sets
`State = Succeeded`, replaces the description, and returns delay `0` with a
`nil` error. -/
theorem c5_succeed_transition (op : MOperation) (d : String)
    (h : op.State = OpState.InProgress) :
    (OperationSucceeded op d).1.State = OpState.Succeeded ∧
    (OperationSucceeded op d).1.Description = d ∧
    (OperationSucceeded op d).2.1 = 0 ∧
    (OperationSucceeded op d).2.2 = none :=
  ⟨rfl, rfl, rfl, rfl⟩

/-- Concrete instance of C5: succeeding an in-progress operation with the
test's description. -/
theorem c5_succeed_transition_witness :
    (⟨"op-1", 0, "inst-1", OpState.InProgress, "d", 0, 0, ""⟩ :
        MOperation).State = OpState.InProgress ∧
    ((OperationSucceeded ⟨"op-1", 0, "inst-1", OpState.InProgress, "d", 0, 0, ""⟩
        "task succeeded").1.State = OpState.Succeeded ∧
      (OperationSucceeded ⟨"op-1", 0, "inst-1", OpState.InProgress, "d", 0, 0, ""⟩
        "task succeeded").1.Description = "task succeeded" ∧
      (OperationSucceeded ⟨"op-1", 0, "inst-1", OpState.InProgress, "d", 0, 0, ""⟩
        "task succeeded").2.1 = 0 ∧
      (OperationSucceeded ⟨"op-1", 0, "inst-1", OpState.InProgress, "d", 0, 0, ""⟩
        "task succeeded").2.2 = none) :=
  ⟨by decide,
    c5_succeed_transition ⟨"op-1", 0, "inst-1", OpState.InProgress, "d", 0, 0, ""⟩
      "task succeeded" (by decide)⟩

/-! ## Theorems: operation store -/

/-- Claim C9: when two updates both present the currently stored version, the
first to be serialized succeeds and bumps the version by exactly one, and the
second then fails with `Conflict` (so exactly one of the two wins, and the
final version is `stored.Version + 1`, never `+ 2`); moreover every update
presenting a stale version is rejected with `Conflict`. -/
theorem c9_optimistic_update (now1 now2 : Nat) (stored a b : MOperation)
    (ha : a.Version = stored.Version) (hb : b.Version = stored.Version) :
    (∃ s1, storeUpdate now1 stored a = Except.ok s1 ∧
      s1.Version = stored.Version + 1 ∧
      storeUpdate now2 s1 b = Except.error StoreError.Conflict) ∧
    (∀ now c, c.Version ≠ stored.Version →
      storeUpdate now stored c = Except.error StoreError.Conflict) := by
  constructor
  · refine ⟨{ a with Version := stored.Version + 1, UpdatedAt := now1 }, ?_, rfl, ?_⟩
    · simp [storeUpdate, ha]
    · have : b.Version ≠ stored.Version + 1 := by omega
      simp [storeUpdate, this]
  · intro now c hc
    simp [storeUpdate, hc]

/-- Concrete instance of C9: a record stored at version `5` and two competing
updates both presenting version `5`; a third update presenting the stale
version `4` is also rejected. -/
theorem c9_optimistic_update_witness :
    (⟨"op-1", 5, "i", OpState.InProgress, "a", 0, 1, ""⟩ : MOperation).Version =
      (⟨"op-1", 5, "i", OpState.InProgress, "s", 0, 0, ""⟩ : MOperation).Version ∧
    (⟨"op-1", 5, "i", OpState.InProgress, "b", 0, 2, ""⟩ : MOperation).Version =
      (⟨"op-1", 5, "i", OpState.InProgress, "s", 0, 0, ""⟩ : MOperation).Version ∧
    ((∃ s1, storeUpdate 11 ⟨"op-1", 5, "i", OpState.InProgress, "s", 0, 0, ""⟩
          ⟨"op-1", 5, "i", OpState.InProgress, "a", 0, 1, ""⟩ = Except.ok s1 ∧
        s1.Version = (⟨"op-1", 5, "i", OpState.InProgress, "s", 0, 0, ""⟩ :
          MOperation).Version + 1 ∧
        storeUpdate 12 s1 ⟨"op-1", 5, "i", OpState.InProgress, "b", 0, 2, ""⟩ =
          Except.error StoreError.Conflict) ∧
      (∀ now c, c.Version ≠ (⟨"op-1", 5, "i", OpState.InProgress, "s", 0, 0, ""⟩ :
          MOperation).Version →
        storeUpdate now ⟨"op-1", 5, "i", OpState.InProgress, "s", 0, 0, ""⟩ c =
          Except.error StoreError.Conflict)) :=
  ⟨by decide, by decide,
    c9_optimistic_update 11 12 ⟨"op-1", 5, "i", OpState.InProgress, "s", 0, 0, ""⟩
      ⟨"op-1", 5, "i", OpState.InProgress, "a", 0, 1, ""⟩
      ⟨"op-1", 5, "i", OpState.InProgress, "b", 0, 2, ""⟩ (by decide) (by decide)⟩

/-! ## Theorems: status aggregator -/

/-- Claim C1, counterexample: with a Provisioning record created at `10` and
an Upgrade record created at `5` — not strictly after the candidate —
`findLastOperation` nevertheless replaces the candidate with the Upgrade
record (the code takes the first upgrade operation unconditionally, without
any `CreatedAt` comparison). -/
theorem c1_counterexample :
    ¬ (⟨"in progress", "", 10, "p"⟩ : Operation).CreatedAt <
        (⟨"in progress", "", 5, "u"⟩ : Operation).CreatedAt ∧
    findLastOperation
        ⟨some ⟨"in progress", "", 10, "p"⟩, [⟨"in progress", "", 5, "u"⟩], [], [], none⟩ =
      some (⟨"in progress", "", 5, "u"⟩, OperationType.upgradeKyma) := by
  decide

/-- Claim C1 as amended: starting from the Provisioning record, the Upgrade
kind's most recent record replaces the candidate unconditionally whenever one
is present, and then Unsuspension, Suspension and Deprovisioning, in that
order, each replace the candidate exactly when their most recent record's
`CreatedAt` is strictly after the current candidate's. -/
theorem c1_priority_order_amended (rt : RuntimeStatus) (p : Operation)
    (h : rt.Provisioning = some p) :
    findLastOperation rt = some (aggregateAmended rt p) := by
  obtain ⟨P, U, Un, Su, De⟩ := rt
  cases h
  cases U <;> cases Un <;> cases Su <;> cases De <;> rfl

/-- Concrete instance of the amended C1: a runtime with records of every
kind. -/
theorem c1_priority_order_amended_witness :
    (⟨some ⟨"in progress", "", 3, "p"⟩, [⟨"in progress", "", 1, "u"⟩],
        [⟨"succeeded", "", 4, "un"⟩], [⟨"failed", "", 2, "su"⟩],
        some ⟨"in progress", "", 6, "de"⟩⟩ : RuntimeStatus).Provisioning =
      some ⟨"in progress", "", 3, "p"⟩ ∧
    findLastOperation
        ⟨some ⟨"in progress", "", 3, "p"⟩, [⟨"in progress", "", 1, "u"⟩],
          [⟨"succeeded", "", 4, "un"⟩], [⟨"failed", "", 2, "su"⟩],
          some ⟨"in progress", "", 6, "de"⟩⟩ =
      some (aggregateAmended
        ⟨some ⟨"in progress", "", 3, "p"⟩, [⟨"in progress", "", 1, "u"⟩],
          [⟨"succeeded", "", 4, "un"⟩], [⟨"failed", "", 2, "su"⟩],
          some ⟨"in progress", "", 6, "de"⟩⟩ ⟨"in progress", "", 3, "p"⟩) :=
  ⟨rfl,
    c1_priority_order_amended
      ⟨some ⟨"in progress", "", 3, "p"⟩, [⟨"in progress", "", 1, "u"⟩],
        [⟨"succeeded", "", 4, "un"⟩], [⟨"failed", "", 2, "su"⟩],
        some ⟨"in progress", "", 6, "de"⟩⟩ ⟨"in progress", "", 3, "p"⟩ rfl⟩

/-- Claim C6: the full label table of `operationStatusToString`, for every
description, operation id and creation time: the `InProgress`, `Succeeded`
and `Failed` rows over the five kinds. -/
theorem c6_label_table (d o : String) (c : Nat) :
    (operationStatusToString ⟨inProgress, d, c, o⟩ .provision = "provisioning" ∧
      operationStatusToString ⟨inProgress, d, c, o⟩ .upgradeKyma = "upgrading" ∧
      operationStatusToString ⟨inProgress, d, c, o⟩ .suspension =
        "deprovisioning (suspending)" ∧
      operationStatusToString ⟨inProgress, d, c, o⟩ .unsuspension =
        "provisioning (unsuspending)" ∧
      operationStatusToString ⟨inProgress, d, c, o⟩ .deprovision = "deprovisioning") ∧
    (operationStatusToString ⟨succeeded, d, c, o⟩ .provision = "succeeded" ∧
      operationStatusToString ⟨succeeded, d, c, o⟩ .upgradeKyma = "succeeded" ∧
      operationStatusToString ⟨succeeded, d, c, o⟩ .suspension = "suspended" ∧
      operationStatusToString ⟨succeeded, d, c, o⟩ .unsuspension = "succeeded" ∧
      operationStatusToString ⟨succeeded, d, c, o⟩ .deprovision = "deprovisioned") ∧
    (operationStatusToString ⟨failed, d, c, o⟩ .provision = "failed (provision)" ∧
      operationStatusToString ⟨failed, d, c, o⟩ .upgradeKyma = "failed (kyma upgrade)" ∧
      operationStatusToString ⟨failed, d, c, o⟩ .suspension = "failed (suspension)" ∧
      operationStatusToString ⟨failed, d, c, o⟩ .unsuspension = "failed (unsuspension)" ∧
      operationStatusToString ⟨failed, d, c, o⟩ .deprovision = "failed (deprovision)") :=
  ⟨⟨rfl, rfl, rfl, rfl, rfl⟩, ⟨rfl, rfl, rfl, rfl, rfl⟩, ⟨rfl, rfl, rfl, rfl, rfl⟩⟩

/-- Claim C7: for every operation whose state string matches none of the
table's three states, `operationStatusToString` falls back to `"succeeded"`
for every kind. -/
theorem c7_label_fallback (op : Operation) (t : OperationType)
    (h1 : op.State ≠ succeeded) (h2 : op.State ≠ failed)
    (h3 : op.State ≠ inProgress) :
    operationStatusToString op t = "succeeded" := by
  delta operationStatusToString
  rw [if_neg h1, if_neg h2, if_neg h3]

/-- Concrete instance of C7: an operation in an uncovered state
(`"pending"`) renders as `"succeeded"`. -/
theorem c7_label_fallback_witness :
    (⟨"pending", "", 0, "p"⟩ : Operation).State ≠ succeeded ∧
    (⟨"pending", "", 0, "p"⟩ : Operation).State ≠ failed ∧
    (⟨"pending", "", 0, "p"⟩ : Operation).State ≠ inProgress ∧
    operationStatusToString ⟨"pending", "", 0, "p"⟩ OperationType.deprovision =
      "succeeded" :=
  ⟨by decide, by decide, by decide,
    c7_label_fallback ⟨"pending", "", 0, "p"⟩ OperationType.deprovision
      (by decide) (by decide) (by decide)⟩

/-- Claim C8: a runtime whose Provisioning record was created at `t0` and
whose Upgrade record was created at `t1 > t0`, both in progress, aggregates
to the label `"upgrading"`. -/
theorem c8_upgrade_wins (t0 t1 : Nat) (h : t0 < t1) (d1 d2 o1 o2 : String) :
    runtimeStatus
        ⟨some ⟨inProgress, d1, t0, o1⟩, [⟨inProgress, d2, t1, o2⟩], [], [], none⟩ =
      some "upgrading" :=
  rfl

/-- Concrete instance of C8: provisioning at `0`, upgrade at `1`. -/
theorem c8_upgrade_wins_witness :
    (0 : Nat) < 1 ∧
    runtimeStatus
        ⟨some ⟨inProgress, "p", 0, "op-p"⟩, [⟨inProgress, "u", 1, "op-u"⟩], [], [], none⟩ =
      some "upgrading" :=
  ⟨by decide, c8_upgrade_wins 0 1 (by decide) "p" "u" "op-p" "op-u"⟩

/-- Claim C10: `findLastOperation` dereferences the Provisioning record
first; on a runtime whose Provisioning status is `nil` it panics — modelled
as returning `none` — no matter which other kinds of records exist. -/
theorem c10_provisioning_required (rt : RuntimeStatus)
    (h : rt.Provisioning = none) :
    findLastOperation rt = none := by
  obtain ⟨P, U, Un, Su, De⟩ := rt
  cases h
  rfl

/-- Concrete instance of C10: a runtime with Upgrade, Unsuspension,
Suspension and Deprovisioning records but no Provisioning record. -/
theorem c10_provisioning_required_witness :
    (⟨none, [⟨"in progress", "", 5, "u"⟩], [⟨"succeeded", "", 4, "un"⟩],
        [⟨"failed", "", 3, "su"⟩], some ⟨"in progress", "", 6, "de"⟩⟩ :
      RuntimeStatus).Provisioning = none ∧
    findLastOperation
        ⟨none, [⟨"in progress", "", 5, "u"⟩], [⟨"succeeded", "", 4, "un"⟩],
          [⟨"failed", "", 3, "su"⟩], some ⟨"in progress", "", 6, "de"⟩⟩ = none :=
  ⟨rfl,
    c10_provisioning_required
      ⟨none, [⟨"in progress", "", 5, "u"⟩], [⟨"succeeded", "", 4, "un"⟩],
        [⟨"failed", "", 3, "su"⟩], some ⟨"in progress", "", 6, "de"⟩⟩ rfl⟩

end ControlPlane
